import Mathlib

/-!
Verification development for the AthenaK problem-generator files
`src/pgen/bondi.cpp`, `src/pgen/rad_bondi.cpp` and
`src/pgen/cylindrical_jet_2.cpp`: the initial-state kernels and the
per-substep source-term operators (point-mass gravity with softening,
tabular cooling, cylindrical jet injection).

Floating-point arithmetic is modelled over the real numbers.  Each C++
kernel body is translated cell-locally: a kernel becomes a function of
the cell-center position `(x1v, x2v, x3v)` and the cell's prior state,
returning the new state.  Field-level operators are the pointwise
extension over an arbitrary cell-index type equipped with a position
map.  The externally supplied cooling table `ISMCoolFn` is kept
abstract as a function parameter.
-/

open Classical

noncomputable section

/-- The `SQR` helper macro of the AthenaK headers: the square `x*x`. -/
def SQR (x : ℝ) : ℝ := x * x

/-- One cell's hydro state vector, as stored in the 5-D state arrays
`u0` (conserved) and `w0` (primitive): density slot `IDN`, the three
momentum (resp. velocity) slots `IM1..IM3`, the energy slot `IEN`, and
the passive-scalar slots (re-indexed from `nhydro` to start at 0). -/
@[ext]
structure HydroState where
  dens : ℝ
  m1 : ℝ
  m2 : ℝ
  m3 : ℝ
  en : ℝ
  scal : ℕ → ℝ

namespace RadBondi

/-- The `pgen_bh` parameter struct of `rad_bondi.cpp`. -/
structure Params where
  CONST_G : ℝ
  CONST_K : ℝ
  CONST_kB_cgs : ℝ
  CONST_mp : ℝ
  CONST_mu : ℝ
  r_vir : ℝ
  rho_vir : ℝ
  M_bh : ℝ
  v_bh : ℝ
  rho_cgm : ℝ
  cs_cgm : ℝ
  epsilon : ℝ
  gamma_gas : ℝ
  length_cgs : ℝ
  mass_cgs : ℝ
  time_cgs : ℝ

/-- `Phi_Bondi` of `rad_bondi.cpp`: softened point-mass potential. -/
def Phi_Bondi (r epsilon CONST_G M_bh : ℝ) : ℝ :=
  (-1 * CONST_G * M_bh) / Real.sqrt (SQR r + SQR epsilon)

/-- `Rho_bondi` of `rad_bondi.cpp`: hydrostatic polytropic density
profile anchored at the virial radius. -/
def Rho_bondi (r epsilon CONST_G M_bh CONST_K gamma_gas rho_vir r_vir : ℝ) : ℝ :=
  let gm1 := gamma_gas - 1
  let term1 := -1 * (gm1 / (CONST_K * gamma_gas)) * Phi_Bondi r epsilon CONST_G M_bh
  let term2 := -1 * (gm1 / (CONST_K * gamma_gas)) * Phi_Bondi r_vir epsilon CONST_G M_bh
  rho_vir + term1 ^ ((1.0 : ℝ) / gm1) - term2 ^ ((1.0 : ℝ) / gm1)

/-- The cell body of the `par_for("bondi", ...)` initialization kernel in
`rad_bondi.cpp::UserProblem`: inside the virial radius write the Bondi
profile, outside write the uniform ambient CGM state; momentum is
zeroed and the energy is `pres/gm1` plus the (vanishing) kinetic term
computed from the just-written momenta. -/
def initCell (p : Params) (x1v x2v x3v : ℝ) (old : HydroState) : HydroState :=
  let gm1 := p.gamma_gas - 1
  let rad := Real.sqrt (SQR x1v + SQR x2v + SQR x3v)
  if rad < p.r_vir then
    let dens := Rho_bondi rad p.epsilon p.CONST_G p.M_bh p.CONST_K p.gamma_gas
      p.rho_vir p.r_vir
    let pres := p.CONST_K * dens ^ p.gamma_gas
    { old with
      dens := dens
      m1 := 0.0
      m2 := 0.0
      m3 := 0.0
      en := pres / gm1 + 0.5 * (SQR 0.0 + SQR 0.0 + SQR 0.0) / dens }
  else
    let pres := p.rho_cgm * SQR p.cs_cgm
    { old with
      dens := p.rho_cgm
      m1 := 0.0
      m2 := 0.0
      m3 := 0.0
      en := pres / gm1 + 0.5 * (SQR 0.0 + SQR 0.0 + SQR 0.0) / p.rho_cgm }

/-- The state-field effect of `rad_bondi.cpp::UserProblem`: on restart
the conserved field is left untouched, otherwise every cell is
initialized from its cell-center position. -/
def UserProblem {ι : Type} (p : Params) (restart : Bool)
    (pos : ι → ℝ × ℝ × ℝ) (u0 : ι → HydroState) : ι → HydroState :=
  if restart then u0
  else fun c => initCell p (pos c).1 (pos c).2.1 (pos c).2.2 (u0 c)

/-- The cell body of `rad_bondi.cpp::AddBHGrav`: softened inverse-square
gravity scaled by the cell's current conserved density; momenta are
decremented first, then the energy is decremented using the dot product
of the already-updated momentum with the position. -/
def AddBHGravCell (p : Params) (bdt x1v x2v x3v : ℝ) (u : HydroState) : HydroState :=
  let rad := Real.sqrt (SQR x1v + SQR x2v + SQR x3v)
  let grad_phi_by_r := (p.CONST_G * p.M_bh) / (SQR rad + SQR p.epsilon) ^ (1.5 : ℝ)
  let m1 := u.m1 - (u.dens * grad_phi_by_r * bdt) * x1v
  let m2 := u.m2 - (u.dens * grad_phi_by_r * bdt) * x2v
  let m3 := u.m3 - (u.dens * grad_phi_by_r * bdt) * x3v
  let p_dot_r := m1 * x1v + m2 * x2v + m3 * x3v
  { u with
    m1 := m1
    m2 := m2
    m3 := m3
    en := u.en - p_dot_r * grad_phi_by_r * bdt }

/-- `rad_bondi.cpp::AddBHGrav` over the whole state field. -/
def AddBHGrav {ι : Type} (p : Params) (bdt : ℝ)
    (pos : ι → ℝ × ℝ × ℝ) (u0 : ι → HydroState) : ι → HydroState :=
  fun c => AddBHGravCell p bdt (pos c).1 (pos c).2.1 (pos c).2.2 (u0 c)

/-- The cell body of `rad_bondi.cpp::AddTabularCooling`: convert the
primitive density and pressure to cgs, form number density and
temperature, evaluate the cooling table, and subtract the
code-unit cooling rate times `bdt` from the total energy.  The
cell-center position is computed in the source kernel but unused by the
update.  `ISMCoolFn` (declared in `srcterms/ismcooling.hpp`, outside
these files) is abstract. -/
def AddTabularCoolingCell (p : Params) (ISMCoolFn : ℝ → ℝ) (bdt : ℝ)
    (x1v x2v x3v : ℝ) (w : HydroState) (u : HydroState) : HydroState :=
  let gm1 := p.gamma_gas - 1
  let rho_cgs := p.mass_cgs / p.length_cgs ^ (3.0 : ℝ)
  let v_cgs := p.length_cgs / p.time_cgs
  let temp_unit := p.CONST_mu * p.CONST_mp / p.CONST_kB_cgs
  let cooling_rate_unit := p.mass_cgs / (p.length_cgs * p.time_cgs ^ (3.0 : ℝ))
  let dens_cgs := w.dens * rho_cgs
  let pres_cgs := w.en * gm1 * rho_cgs * SQR v_cgs
  let temp_cgs := (pres_cgs / dens_cgs) * temp_unit
  let n_cgs := dens_cgs / (p.CONST_mu * p.CONST_mp)
  let lambda_cgs := ISMCoolFn temp_cgs
  let cooling_rate_cgs := SQR n_cgs * lambda_cgs
  let cooling_rate_code := cooling_rate_cgs / cooling_rate_unit
  { u with
    en := u.en - cooling_rate_code * bdt }

/-- `rad_bondi.cpp::AddUserSrcs`: the registered per-substep source-term
dispatcher; its body invokes `AddBHGrav` and nothing else. -/
def AddUserSrcs {ι : Type} (p : Params) (bdt : ℝ)
    (pos : ι → ℝ × ℝ × ℝ) (w0 u0 : ι → HydroState) : ι → HydroState :=
  AddBHGrav p bdt pos u0

end RadBondi

namespace Bondi

/-- The `pgen_bh` parameter struct of `bondi.cpp`. -/
structure Params where
  cs_amb : ℝ
  d_amb : ℝ
  M_bh : ℝ
  gamma : ℝ
  CONST_G : ℝ
  epsilon : ℝ

/-- The cell body of the `par_for("bondi", ...)` initialization kernel
in `bondi.cpp::UserProblem`: a uniform ambient state. -/
def initCell (p : Params) (x1v x2v x3v : ℝ) (old : HydroState) : HydroState :=
  let gm1 := p.gamma - 1
  let pres := p.d_amb * SQR p.cs_amb
  { old with
    dens := p.d_amb
    m1 := 0.0
    m2 := 0.0
    m3 := 0.0
    en := pres / gm1 + 0.5 * (SQR 0.0 + SQR 0.0 + SQR 0.0) / p.d_amb }

/-- The cell body of `bondi.cpp::AddBHGrav`: like the `rad_bondi`
variant but the momentum source is scaled by the ambient density
constant `d_amb` instead of the cell's conserved density. -/
def AddBHGravCell (p : Params) (bdt x1v x2v x3v : ℝ) (u : HydroState) : HydroState :=
  let rad := Real.sqrt (SQR x1v + SQR x2v + SQR x3v)
  let grad_phi_by_r := (p.CONST_G * p.M_bh) / (SQR rad + SQR p.epsilon) ^ (1.5 : ℝ)
  let m1 := u.m1 - (p.d_amb * grad_phi_by_r * bdt) * x1v
  let m2 := u.m2 - (p.d_amb * grad_phi_by_r * bdt) * x2v
  let m3 := u.m3 - (p.d_amb * grad_phi_by_r * bdt) * x3v
  let p_dot_r := m1 * x1v + m2 * x2v + m3 * x3v
  { u with
    m1 := m1
    m2 := m2
    m3 := m3
    en := u.en - p_dot_r * grad_phi_by_r * bdt }

end Bondi

namespace Jet

/-- The `pgen_jet_amb` parameter struct of `cylindrical_jet_2.cpp`. -/
structure Params where
  cs_amb : ℝ
  d_amb : ℝ
  rho_jet : ℝ
  gamma : ℝ
  r_jet : ℝ
  h_jet : ℝ
  l_jet : ℝ
  v_jet : ℝ

/-- `cylindrical_jet_2.cpp::InJet`: a point is inside the jet cylinder
when `x2^2 + x3^2 <= r_jet^2` and `|x1| <= h_jet`. -/
def InJet (x1v x2v x3v r_jet h_jet : ℝ) : Prop :=
  (x2v * x2v + x3v * x3v ≤ r_jet * r_jet) ∧ (|x1v| ≤ h_jet)

/-- The cell body of the `par_for("jets", ...)` initialization kernel in
`cylindrical_jet_2.cpp::UserProblem`: jet values inside the cylinder,
ambient values outside, passive scalars set to the region indicator. -/
def initCell (p : Params) (nscalars : ℕ) (x1v x2v x3v : ℝ)
    (old : HydroState) : HydroState :=
  let gm1 := p.gamma - 1
  let pres := p.d_amb * SQR p.cs_amb
  if InJet x1v x2v x3v p.r_jet p.h_jet then
    let rad := Real.sqrt (SQR x1v + SQR x2v + SQR x3v)
    let m1 := if rad > 0 then p.rho_jet * p.v_jet else 0.0
    { dens := p.rho_jet
      m1 := m1
      m2 := 0.0
      m3 := 0.0
      en := pres / gm1 + 0.5 * (SQR m1 + SQR 0.0 + SQR 0.0) / p.rho_jet
      scal := fun n => if n < nscalars then 1.0 else old.scal n }
  else
    { dens := p.d_amb
      m1 := 0.0
      m2 := 0.0
      m3 := 0.0
      en := pres / gm1 + 0.5 * (SQR 0.0 + SQR 0.0 + SQR 0.0) / p.d_amb
      scal := fun n => if n < nscalars then 0.0 else old.scal n }

/-- The state-field effect of `cylindrical_jet_2.cpp::UserProblem`. -/
def UserProblem {ι : Type} (p : Params) (nscalars : ℕ) (restart : Bool)
    (pos : ι → ℝ × ℝ × ℝ) (u0 : ι → HydroState) : ι → HydroState :=
  if restart then u0
  else fun c => initCell p nscalars (pos c).1 (pos c).2.1 (pos c).2.2 (u0 c)

/-- The cell body of `cylindrical_jet_2.cpp::AddJets`: inside the jet
cylinder the conserved state is overwritten with the fixed injection
values (momentum along the x1 axis when the radius is positive, zero at
the origin); cells outside are untouched. -/
def AddJetsCell (p : Params) (nscalars : ℕ) (bdt : ℝ) (x1v x2v x3v : ℝ)
    (u : HydroState) : HydroState :=
  let gm1 := p.gamma - 1
  if InJet x1v x2v x3v p.r_jet p.h_jet then
    let pres := p.d_amb * SQR p.cs_amb
    let rad := Real.sqrt (SQR x1v + SQR x2v + SQR x3v)
    let m1 := if rad > 0 then p.rho_jet * p.v_jet else 0.0
    { dens := p.rho_jet
      m1 := m1
      m2 := 0.0
      m3 := 0.0
      en := pres / gm1 + 0.5 * (SQR m1 + SQR 0.0 + SQR 0.0) / p.rho_jet
      scal := fun n => if n < nscalars then 1.0 else u.scal n }
  else u

end Jet

/-- Concrete rad_bondi parameter set used to instantiate
hypothesis-bearing theorems at a checkable input. -/
def pW : RadBondi.Params :=
  { CONST_G := 1
    CONST_K := 1
    CONST_kB_cgs := 1
    CONST_mp := 1
    CONST_mu := 1
    r_vir := 1
    rho_vir := 5
    M_bh := 1
    v_bh := 1
    rho_cgm := 3
    cs_cgm := 1
    epsilon := 1
    gamma_gas := 2
    length_cgs := 1
    mass_cgs := 1
    time_cgs := 1 }

/-- Concrete rad_bondi parameter set matching the regression scenario
G = 1, M = 1, eps = 1/10 of the spec's gravity unit test. -/
def pG : RadBondi.Params :=
  { CONST_G := 1
    CONST_K := 1
    CONST_kB_cgs := 1
    CONST_mp := 1
    CONST_mu := 1
    r_vir := 1
    rho_vir := 1
    M_bh := 1
    v_bh := 1
    rho_cgm := 1
    cs_cgm := 1
    epsilon := 1 / 10
    gamma_gas := 5 / 3
    length_cgs := 1
    mass_cgs := 1
    time_cgs := 1 }

/-- Concrete jet parameter set with unit cylinder and unit injection
values. -/
def pJ : Jet.Params :=
  { cs_amb := 1
    d_amb := 1
    rho_jet := 1
    gamma := 2
    r_jet := 1
    h_jet := 1
    l_jet := 1
    v_jet := 1 }

/-- A concrete cell state: unit density, zero momentum, unit energy. -/
def uW : HydroState :=
  { dens := 1
    m1 := 0
    m2 := 0
    m3 := 0
    en := 1
    scal := fun _ => 0 }

/-- The regression test cell: unit density, zero momentum, zero
energy. -/
def uG : HydroState :=
  { dens := 1
    m1 := 0
    m2 := 0
    m3 := 0
    en := 0
    scal := fun _ => 0 }

end

/-- The squared softened radius appearing in both gravity kernels:
`SQR(rad) + SQR(eps)` with `rad = sqrt(SQR x1 + SQR x2 + SQR x3)`
equals `x1^2 + x2^2 + x3^2 + eps^2`. -/
theorem sqrt_sq_add (x1 x2 x3 e : ℝ) :
    SQR (Real.sqrt (SQR x1 + SQR x2 + SQR x3)) + SQR e
      = x1 ^ 2 + x2 ^ 2 + x3 ^ 2 + e ^ 2 := by
  simp only [SQR]
  rw [Real.mul_self_sqrt (add_nonneg (add_nonneg (mul_self_nonneg x1)
    (mul_self_nonneg x2)) (mul_self_nonneg x3))]
  ring

/-- C1: both gravity variants first decrement each momentum component
by rho * a(r) * bdt * x_n with a(r) = G*M / (r^2 + eps^2)^(3/2) (rho
being the cell conserved density in rad_bondi and the ambient constant
d_amb in bondi), and only then decrement the total energy by
(p . x) * a(r) * bdt, the dot product taken with the already-updated
momentum vector. -/
theorem C1_gravity_momentum_then_energy (pr : RadBondi.Params) (pb : Bondi.Params)
    (bdt x1 x2 x3 : ℝ) (u v : HydroState) :
    (let a := pr.CONST_G * pr.M_bh /
        (x1 ^ 2 + x2 ^ 2 + x3 ^ 2 + pr.epsilon ^ 2) ^ ((3 : ℝ) / 2)
     let q1 := u.m1 - u.dens * a * bdt * x1
     let q2 := u.m2 - u.dens * a * bdt * x2
     let q3 := u.m3 - u.dens * a * bdt * x3
     (RadBondi.AddBHGravCell pr bdt x1 x2 x3 u).m1 = q1 ∧
     (RadBondi.AddBHGravCell pr bdt x1 x2 x3 u).m2 = q2 ∧
     (RadBondi.AddBHGravCell pr bdt x1 x2 x3 u).m3 = q3 ∧
     (RadBondi.AddBHGravCell pr bdt x1 x2 x3 u).en =
       u.en - (q1 * x1 + q2 * x2 + q3 * x3) * a * bdt) ∧
    (let a := pb.CONST_G * pb.M_bh /
        (x1 ^ 2 + x2 ^ 2 + x3 ^ 2 + pb.epsilon ^ 2) ^ ((3 : ℝ) / 2)
     let q1 := v.m1 - pb.d_amb * a * bdt * x1
     let q2 := v.m2 - pb.d_amb * a * bdt * x2
     let q3 := v.m3 - pb.d_amb * a * bdt * x3
     (Bondi.AddBHGravCell pb bdt x1 x2 x3 v).m1 = q1 ∧
     (Bondi.AddBHGravCell pb bdt x1 x2 x3 v).m2 = q2 ∧
     (Bondi.AddBHGravCell pb bdt x1 x2 x3 v).m3 = q3 ∧
     (Bondi.AddBHGravCell pb bdt x1 x2 x3 v).en =
       v.en - (q1 * x1 + q2 * x2 + q3 * x3) * a * bdt) := by
  have hexp : (1.5 : ℝ) = 3 / 2 := by norm_num
  constructor
  · dsimp only
    simp only [RadBondi.AddBHGravCell, sqrt_sq_add, hexp]
    exact ⟨by ring_nf, by ring_nf, by ring_nf, by ring_nf⟩
  · dsimp only
    simp only [Bondi.AddBHGravCell, sqrt_sq_add, hexp]
    exact ⟨by ring_nf, by ring_nf, by ring_nf, by ring_nf⟩

/-- C6: the per-substep dispatcher of rad_bondi applies exactly the
gravity operator; extensionally it equals AddBHGrav on every state
field, so no cooling update is ever applied by the registered source
terms. -/
theorem C6_user_srcs_is_grav_only {ι : Type} (p : RadBondi.Params) (bdt : ℝ)
    (pos : ι → ℝ × ℝ × ℝ) (w0 u0 : ι → HydroState) :
    RadBondi.AddUserSrcs p bdt pos w0 u0 = RadBondi.AddBHGrav p bdt pos u0 := rfl

/-- C8: the jet region predicate is inclusive on the cylindrical
boundary, and holds exactly when x2^2 + x3^2 <= r_jet^2 and
|x1| <= h_jet. -/
theorem C8_injet_inclusive_boundary (x1 x2 x3 r_jet h_jet : ℝ) :
    (x2 ^ 2 + x3 ^ 2 = r_jet ^ 2 → |x1| = h_jet →
      Jet.InJet x1 x2 x3 r_jet h_jet) ∧
    (Jet.InJet x1 x2 x3 r_jet h_jet ↔
      (x2 ^ 2 + x3 ^ 2 ≤ r_jet ^ 2 ∧ |x1| ≤ h_jet)) := by
  constructor
  · intro h1 h2
    exact ⟨by nlinarith, le_of_eq h2⟩
  · unfold Jet.InJet
    constructor
    · rintro ⟨ha, hb⟩
      exact ⟨by nlinarith, hb⟩
    · rintro ⟨ha, hb⟩
      exact ⟨by nlinarith, hb⟩

/-- Witness for C8: the point (1, 1, 0) lies exactly on the boundary of
the cylinder with r_jet = 1 and h_jet = 1 and is classified inside. -/
theorem C8_injet_inclusive_boundary_witness : Jet.InJet 1 1 0 1 1 :=
  (C8_injet_inclusive_boundary 1 1 0 1 1).1 (by norm_num) (by norm_num)

/-- C9: with the restart flag set, both initial-state kernels leave the
whole conserved-state field unchanged. -/
theorem C9_restart_noop {ι : Type} (pr : RadBondi.Params) (pj : Jet.Params)
    (nscalars : ℕ) (pos : ι → ℝ × ℝ × ℝ) (u0 : ι → HydroState) :
    RadBondi.UserProblem pr true pos u0 = u0 ∧
    Jet.UserProblem pj nscalars true pos u0 = u0 :=
  ⟨rfl, rfl⟩

/-- C10: both gravity variants leave the cell density and every
passive-scalar slot unchanged; only momenta and total energy are
written. -/
theorem C10_gravity_preserves_dens_scal (pr : RadBondi.Params) (pb : Bondi.Params)
    (bdt x1 x2 x3 : ℝ) (u v : HydroState) :
    ((RadBondi.AddBHGravCell pr bdt x1 x2 x3 u).dens = u.dens ∧
      (RadBondi.AddBHGravCell pr bdt x1 x2 x3 u).scal = u.scal) ∧
    ((Bondi.AddBHGravCell pb bdt x1 x2 x3 v).dens = v.dens ∧
      (Bondi.AddBHGravCell pb bdt x1 x2 x3 v).scal = v.scal) :=
  ⟨⟨rfl, rfl⟩, ⟨rfl, rfl⟩⟩

/-- The profile term of Rho_bondi, rewritten in the spec's form
-(gamma-1)/(K*gamma) * Phi(s) with Phi(s) = -G*M/sqrt(s^2+eps^2). -/
theorem bondi_term_eq (g K G M e s : ℝ) :
    -1 * ((g - 1) / (K * g)) * RadBondi.Phi_Bondi s e G M
      = -((g - 1) / (K * g)) * (-(G * M) / Real.sqrt (s ^ 2 + e ^ 2)) := by
  rw [RadBondi.Phi_Bondi]
  rw [show SQR s + SQR e = s ^ 2 + e ^ 2 by simp only [SQR]; ring]
  ring

/-- Rho_bondi in the spec's closed form. -/
theorem Rho_bondi_eq (r e G M K g rv rvir : ℝ) :
    RadBondi.Rho_bondi r e G M K g rv rvir
      = rv
        + (-((g - 1) / (K * g)) * (-(G * M) / Real.sqrt (r ^ 2 + e ^ 2)))
            ^ (1 / (g - 1))
        - (-((g - 1) / (K * g)) * (-(G * M) / Real.sqrt (rvir ^ 2 + e ^ 2)))
            ^ (1 / (g - 1)) := by
  simp only [RadBondi.Rho_bondi]
  rw [show (1.0 : ℝ) = 1 by norm_num]
  rw [bondi_term_eq, bondi_term_eq]

/-- C2: strictly inside the virial radius the rad_bondi initial state
has density rho(r) = rho_vir + (-(gamma-1)/(K gamma) Phi(r))^(1/(gamma-1))
- (-(gamma-1)/(K gamma) Phi(r_vir))^(1/(gamma-1)) with
Phi(s) = -G M / sqrt(s^2 + eps^2), zero momentum, and total energy
K rho^gamma / (gamma-1) (the kinetic term vanishes). -/
theorem C2_radbondi_initial_profile (p : RadBondi.Params) (x1 x2 x3 : ℝ)
    (u : HydroState)
    (h : Real.sqrt (SQR x1 + SQR x2 + SQR x3) < p.r_vir) :
    (let r := Real.sqrt (SQR x1 + SQR x2 + SQR x3)
     let gm1 := p.gamma_gas - 1
     let rho := p.rho_vir
       + (-(gm1 / (p.CONST_K * p.gamma_gas)) *
           (-(p.CONST_G * p.M_bh) / Real.sqrt (r ^ 2 + p.epsilon ^ 2))) ^ (1 / gm1)
       - (-(gm1 / (p.CONST_K * p.gamma_gas)) *
           (-(p.CONST_G * p.M_bh) / Real.sqrt (p.r_vir ^ 2 + p.epsilon ^ 2))) ^ (1 / gm1)
     (RadBondi.initCell p x1 x2 x3 u).dens = rho ∧
     (RadBondi.initCell p x1 x2 x3 u).m1 = 0 ∧
     (RadBondi.initCell p x1 x2 x3 u).m2 = 0 ∧
     (RadBondi.initCell p x1 x2 x3 u).m3 = 0 ∧
     (RadBondi.initCell p x1 x2 x3 u).en
       = p.CONST_K * rho ^ p.gamma_gas / gm1) := by
  have hrho := Rho_bondi_eq (Real.sqrt (SQR x1 + SQR x2 + SQR x3)) p.epsilon
    p.CONST_G p.M_bh p.CONST_K p.gamma_gas p.rho_vir p.r_vir
  dsimp only
  simp only [RadBondi.initCell]
  rw [if_pos h]
  dsimp only
  rw [hrho]
  refine ⟨rfl, by norm_num, by norm_num, by norm_num, ?_⟩
  norm_num [SQR]

/-- Witness for C2: at the origin of a domain with r_vir = 1 the
hypothesis sqrt(0) < 1 holds and C2 applies. -/
theorem C2_radbondi_initial_profile_witness :
    (Real.sqrt (SQR 0 + SQR 0 + SQR 0) < pW.r_vir) ∧
    (let r := Real.sqrt (SQR 0 + SQR 0 + SQR 0)
     let gm1 := pW.gamma_gas - 1
     let rho := pW.rho_vir
       + (-(gm1 / (pW.CONST_K * pW.gamma_gas)) *
           (-(pW.CONST_G * pW.M_bh) / Real.sqrt (r ^ 2 + pW.epsilon ^ 2))) ^ (1 / gm1)
       - (-(gm1 / (pW.CONST_K * pW.gamma_gas)) *
           (-(pW.CONST_G * pW.M_bh) / Real.sqrt (pW.r_vir ^ 2 + pW.epsilon ^ 2))) ^ (1 / gm1)
     (RadBondi.initCell pW 0 0 0 uW).dens = rho ∧
     (RadBondi.initCell pW 0 0 0 uW).m1 = 0 ∧
     (RadBondi.initCell pW 0 0 0 uW).m2 = 0 ∧
     (RadBondi.initCell pW 0 0 0 uW).m3 = 0 ∧
     (RadBondi.initCell pW 0 0 0 uW).en
       = pW.CONST_K * rho ^ pW.gamma_gas / gm1) :=
  ⟨by norm_num [SQR, Real.sqrt_zero, pW],
   C2_radbondi_initial_profile pW 0 0 0 uW
     (by norm_num [SQR, Real.sqrt_zero, pW])⟩

/-- The Bondi profile density is antitone in the radius when gamma > 1,
K > 0, G*M > 0 and the softening length is nonzero. -/
theorem Rho_bondi_anti (e G M K g rv rvir : ℝ) (hg : 1 < g) (hK : 0 < K)
    (hGM : 0 < G * M) (he : e ≠ 0) (r1 r2 : ℝ) (h0 : 0 ≤ r1) (h12 : r1 ≤ r2) :
    RadBondi.Rho_bondi r2 e G M K g rv rvir
      ≤ RadBondi.Rho_bondi r1 e G M K g rv rvir := by
  rw [Rho_bondi_eq, Rho_bondi_eq]
  have hc : 0 < (g - 1) / (K * g) := div_pos (by linarith) (mul_pos hK (by linarith))
  have he2 : 0 < e ^ 2 := lt_of_le_of_ne (sq_nonneg e) (Ne.symm (pow_ne_zero 2 he))
  have hs1 : 0 < Real.sqrt (r1 ^ 2 + e ^ 2) :=
    Real.sqrt_pos.mpr (by nlinarith [sq_nonneg r1])
  have hs2 : 0 < Real.sqrt (r2 ^ 2 + e ^ 2) :=
    Real.sqrt_pos.mpr (by nlinarith [sq_nonneg r2])
  have hs12 : Real.sqrt (r1 ^ 2 + e ^ 2) ≤ Real.sqrt (r2 ^ 2 + e ^ 2) :=
    Real.sqrt_le_sqrt (by nlinarith)
  have hbase : ∀ s : ℝ,
      -((g - 1) / (K * g)) * (-(G * M) / s) = (g - 1) / (K * g) * (G * M) / s := by
    intro s
    ring
  simp only [hbase]
  have hnum : 0 < (g - 1) / (K * g) * (G * M) := mul_pos hc hGM
  have hb2 : 0 ≤ (g - 1) / (K * g) * (G * M) / Real.sqrt (r2 ^ 2 + e ^ 2) :=
    le_of_lt (div_pos hnum hs2)
  have hb12 : (g - 1) / (K * g) * (G * M) / Real.sqrt (r2 ^ 2 + e ^ 2)
      ≤ (g - 1) / (K * g) * (G * M) / Real.sqrt (r1 ^ 2 + e ^ 2) :=
    (div_le_div_iff_of_pos_left hnum hs2 hs1).mpr hs12
  have hz : (0 : ℝ) ≤ 1 / (g - 1) := le_of_lt (div_pos one_pos (by linarith))
  have hr := Real.rpow_le_rpow hb2 hb12 hz
  linarith [hr]

/-- The radius of the cell at position (r, 0, 0) is r itself when
r is nonnegative. -/
theorem rad_axis (r : ℝ) (hr : 0 ≤ r) :
    Real.sqrt (SQR r + SQR (0 : ℝ) + SQR (0 : ℝ)) = r := by
  rw [show SQR r + SQR (0 : ℝ) + SQR (0 : ℝ) = r * r by simp [SQR]]
  exact Real.sqrt_mul_self hr

/-- C5: with gamma > 1, K > 0, G*M > 0 and nonzero softening, the
initial rad_bondi density is monotonically non-increasing in the radius
strictly inside the virial radius; at and beyond the virial radius the
assigned density is exactly the ambient rho_cgm; and the inner profile
formula evaluates to rho_vir at exactly r_vir, so the switch to the
ambient value at r_vir is a hard discontinuous cut, not a blend. -/
theorem C5_profile_monotone_and_ambient (p : RadBondi.Params)
    (hg : 1 < p.gamma_gas) (hK : 0 < p.CONST_K)
    (hGM : 0 < p.CONST_G * p.M_bh) (he : p.epsilon ≠ 0) :
    (∀ u1 u2 : HydroState, ∀ r1 r2 : ℝ, 0 ≤ r1 → r1 ≤ r2 → r2 < p.r_vir →
      (RadBondi.initCell p r2 0 0 u2).dens ≤ (RadBondi.initCell p r1 0 0 u1).dens) ∧
    (∀ u : HydroState, ∀ x1 x2 x3 : ℝ,
      p.r_vir ≤ Real.sqrt (SQR x1 + SQR x2 + SQR x3) →
      (RadBondi.initCell p x1 x2 x3 u).dens = p.rho_cgm) ∧
    RadBondi.Rho_bondi p.r_vir p.epsilon p.CONST_G p.M_bh p.CONST_K p.gamma_gas
      p.rho_vir p.r_vir = p.rho_vir := by
  refine ⟨?_, ?_, ?_⟩
  · intro u1 u2 r1 r2 h0 h12 h2v
    have h02 : 0 ≤ r2 := le_trans h0 h12
    have h1v : r1 < p.r_vir := lt_of_le_of_lt h12 h2v
    simp only [RadBondi.initCell]
    rw [rad_axis r1 h0, rad_axis r2 h02]
    rw [if_pos h2v, if_pos h1v]
    dsimp only
    exact Rho_bondi_anti p.epsilon p.CONST_G p.M_bh p.CONST_K p.gamma_gas
      p.rho_vir p.r_vir hg hK hGM he r1 r2 h0 h12
  · intro u x1 x2 x3 hge
    simp only [RadBondi.initCell]
    rw [if_neg (not_lt.mpr hge)]
  · simp only [RadBondi.Rho_bondi]
    ring

/-- Witness for C5 at the concrete parameter set pW (gamma = 2, K = 1,
G*M = 1, eps = 1). -/
theorem C5_profile_monotone_and_ambient_witness :
    ((1 < pW.gamma_gas) ∧ (0 < pW.CONST_K) ∧ (0 < pW.CONST_G * pW.M_bh) ∧
      pW.epsilon ≠ 0) ∧
    ((∀ u1 u2 : HydroState, ∀ r1 r2 : ℝ, 0 ≤ r1 → r1 ≤ r2 → r2 < pW.r_vir →
      (RadBondi.initCell pW r2 0 0 u2).dens ≤ (RadBondi.initCell pW r1 0 0 u1).dens) ∧
    (∀ u : HydroState, ∀ x1 x2 x3 : ℝ,
      pW.r_vir ≤ Real.sqrt (SQR x1 + SQR x2 + SQR x3) →
      (RadBondi.initCell pW x1 x2 x3 u).dens = pW.rho_cgm) ∧
    RadBondi.Rho_bondi pW.r_vir pW.epsilon pW.CONST_G pW.M_bh pW.CONST_K
      pW.gamma_gas pW.rho_vir pW.r_vir = pW.rho_vir) :=
  ⟨⟨by norm_num [pW], by norm_num [pW], by norm_num [pW], by norm_num [pW]⟩,
   C5_profile_monotone_and_ambient pW (by norm_num [pW]) (by norm_num [pW])
     (by norm_num [pW]) (by norm_num [pW])⟩

/-- C7: the cooling operator subtracts exactly
(n_cgs^2 * Lambda(T_cgs) / cooling_rate_unit) * bdt from the total
energy, with n_cgs = (rho_code * mass_cgs / length_cgs^3) / (mu * m_p),
T_cgs = (p_cgs / rho_cgs) * mu * m_p / k_B where p_cgs is obtained from
the primitive state via the conversion factors and gamma - 1, and
cooling_rate_unit = mass_cgs / (length_cgs * time_cgs^3); every other
state component is unchanged, and the update reads only the primitive
state and the parameters (it is independent of the cell position). -/
theorem C7_cooling_energy_update (p : RadBondi.Params) (ISMCoolFn : ℝ → ℝ)
    (bdt x1 x2 x3 y1 y2 y3 : ℝ) (w u : HydroState) :
    (let n_cgs := (w.dens * p.mass_cgs / p.length_cgs ^ 3) / (p.CONST_mu * p.CONST_mp)
     let p_cgs := w.en * (p.gamma_gas - 1) * (p.mass_cgs / p.length_cgs ^ 3)
         * (p.length_cgs / p.time_cgs) ^ 2
     let T_cgs := p_cgs / (w.dens * p.mass_cgs / p.length_cgs ^ 3)
         * (p.CONST_mu * p.CONST_mp / p.CONST_kB_cgs)
     RadBondi.AddTabularCoolingCell p ISMCoolFn bdt x1 x2 x3 w u
       = { u with
           en := u.en - n_cgs ^ 2 * ISMCoolFn T_cgs
             / (p.mass_cgs / (p.length_cgs * p.time_cgs ^ 3)) * bdt }) ∧
    RadBondi.AddTabularCoolingCell p ISMCoolFn bdt x1 x2 x3 w u
      = RadBondi.AddTabularCoolingCell p ISMCoolFn bdt y1 y2 y3 w u := by
  refine ⟨?_, rfl⟩
  dsimp only
  simp only [RadBondi.AddTabularCoolingCell]
  rw [show (3.0 : ℝ) = ((3 : ℕ) : ℝ) by norm_num]
  simp only [Real.rpow_natCast]
  congr 1
  congr 1
  congr 1
  congr 1
  congr 1
  · simp only [SQR]
    ring
  · congr 1
    simp only [SQR]
    ring

/-- C3 (amended): inside the jet region the injection operator
overwrites the momentum with the fixed axial vector
(rho_jet * v_jet, 0, 0) along the x1 axis when the cell radius is
positive, and with the zero vector when the radius is exactly zero. -/
theorem C3_jet_momentum_axial (p : Jet.Params) (nscalars : ℕ) (bdt x1 x2 x3 : ℝ)
    (u : HydroState) (hin : Jet.InJet x1 x2 x3 p.r_jet p.h_jet) :
    (0 < Real.sqrt (SQR x1 + SQR x2 + SQR x3) →
      (Jet.AddJetsCell p nscalars bdt x1 x2 x3 u).m1 = p.rho_jet * p.v_jet ∧
      (Jet.AddJetsCell p nscalars bdt x1 x2 x3 u).m2 = 0 ∧
      (Jet.AddJetsCell p nscalars bdt x1 x2 x3 u).m3 = 0) ∧
    (Real.sqrt (SQR x1 + SQR x2 + SQR x3) = 0 →
      (Jet.AddJetsCell p nscalars bdt x1 x2 x3 u).m1 = 0 ∧
      (Jet.AddJetsCell p nscalars bdt x1 x2 x3 u).m2 = 0 ∧
      (Jet.AddJetsCell p nscalars bdt x1 x2 x3 u).m3 = 0) := by
  simp only [Jet.AddJetsCell]
  rw [if_pos hin]
  constructor
  · intro hr
    rw [if_pos hr]
    exact ⟨rfl, by norm_num, by norm_num⟩
  · intro hr
    rw [if_neg (by rw [hr]; exact lt_irrefl 0)]
    exact ⟨by norm_num, by norm_num, by norm_num⟩

/-- Witness for C3 (amended) at the in-region point (0, 1, 0) of the
unit jet cylinder. -/
theorem C3_jet_momentum_axial_witness :
    Jet.InJet 0 1 0 pJ.r_jet pJ.h_jet ∧
    ((0 < Real.sqrt (SQR 0 + SQR 1 + SQR 0) →
      (Jet.AddJetsCell pJ 1 (1/100) 0 1 0 uW).m1 = pJ.rho_jet * pJ.v_jet ∧
      (Jet.AddJetsCell pJ 1 (1/100) 0 1 0 uW).m2 = 0 ∧
      (Jet.AddJetsCell pJ 1 (1/100) 0 1 0 uW).m3 = 0) ∧
    (Real.sqrt (SQR 0 + SQR 1 + SQR 0) = 0 →
      (Jet.AddJetsCell pJ 1 (1/100) 0 1 0 uW).m1 = 0 ∧
      (Jet.AddJetsCell pJ 1 (1/100) 0 1 0 uW).m2 = 0 ∧
      (Jet.AddJetsCell pJ 1 (1/100) 0 1 0 uW).m3 = 0)) :=
  ⟨by norm_num [Jet.InJet, pJ],
   C3_jet_momentum_axial pJ 1 (1/100) 0 1 0 uW (by norm_num [Jet.InJet, pJ])⟩

/-- C3 counterexample: the cell at (0, 1, 0) is inside the unit jet
cylinder with positive radius, yet its injected momentum is not a
nonnegative multiple of its position vector — the overwrite is the
fixed axial vector (rho_jet * v_jet, 0, 0), not a radially-outward
vector parallel to the position. -/
theorem C3_jet_momentum_not_radial :
    Jet.InJet 0 1 0 pJ.r_jet pJ.h_jet ∧
    0 < Real.sqrt (SQR 0 + SQR 1 + SQR 0) ∧
    ¬ ∃ c : ℝ, 0 ≤ c ∧
      (Jet.AddJetsCell pJ 1 (1/100) 0 1 0 uW).m1 = c * 0 ∧
      (Jet.AddJetsCell pJ 1 (1/100) 0 1 0 uW).m2 = c * 1 ∧
      (Jet.AddJetsCell pJ 1 (1/100) 0 1 0 uW).m3 = c * 0 := by
  have hone : SQR (0 : ℝ) + SQR 1 + SQR 0 = 1 := by norm_num [SQR]
  have hin : Jet.InJet 0 1 0 pJ.r_jet pJ.h_jet := by norm_num [Jet.InJet, pJ]
  have hrad : Real.sqrt (SQR (0 : ℝ) + SQR 1 + SQR 0) > 0 := by
    rw [hone, Real.sqrt_one]
    norm_num
  have hm1 : (Jet.AddJetsCell pJ 1 (1/100) 0 1 0 uW).m1 = 1 := by
    simp only [Jet.AddJetsCell]
    rw [if_pos hin]
    rw [if_pos hrad]
    norm_num [pJ]
  refine ⟨hin, hrad, ?_⟩
  rintro ⟨c, hc, hx, hy, hz⟩
  rw [hm1] at hx
  norm_num at hx

/-- The squared softened radius of the regression cell at (1, 0, 0)
with eps = 1/10. -/
theorem grav_base_test :
    SQR (Real.sqrt (SQR (1 : ℝ) + SQR 0 + SQR 0)) + SQR ((1 : ℝ) / 10)
      = 101 / 100 := by
  rw [sqrt_sq_add]
  norm_num

/-- The first momentum component written by the rad_bondi gravity
operator at the regression input. -/
theorem gravCell_test_m1 :
    (RadBondi.AddBHGravCell pG (1/100) 1 0 0 uG).m1
      = -(1/100) / ((101/100 : ℝ) ^ ((1.5 : ℝ))) := by
  simp only [RadBondi.AddBHGravCell, pG, uG]
  rw [grav_base_test]
  ring

/-- (101/100)^(3/2) in terms of the square root. -/
theorem rpow_3half_101 :
    ((101 : ℝ)/100) ^ ((1.5 : ℝ)) = (101/100) * Real.sqrt ((101 : ℝ)/100) := by
  rw [show (1.5 : ℝ) = 1 + 1/2 by norm_num]
  rw [Real.rpow_add (by norm_num : (0 : ℝ) < 101/100)]
  rw [Real.rpow_one]
  rw [Real.sqrt_eq_rpow]

/-- Rational bounds for sqrt(101/100). -/
theorem sqrt_101_bounds :
    1.0049 < Real.sqrt ((101 : ℝ)/100) ∧ Real.sqrt ((101 : ℝ)/100) < 1.005 := by
  have h0 : (0 : ℝ) ≤ 101/100 := by norm_num
  have hs := Real.sq_sqrt h0
  have hnn := Real.sqrt_nonneg ((101 : ℝ)/100)
  constructor
  · nlinarith [hs, hnn]
  · nlinarith [hs, hnn]

/-- C4 counterexample: at G = M = 1, eps = 1/10, x = (1, 0, 0), rho = 1,
bdt = 1/100 the gravity operator changes the first momentum component
by -(1/100)/(101/100)^(3/2), about -9.852e-3, which differs from the
claimed regression value -9.803e-3 by more than 4e-5 — far beyond the
rounding tolerance of the quoted four-digit figure. -/
theorem C4_regression_value_wrong :
    (4 : ℝ)/100000 <
      |(RadBondi.AddBHGravCell pG (1/100) 1 0 0 uG).m1 - uG.m1
        + 9803/1000000| := by
  have hd : (RadBondi.AddBHGravCell pG (1/100) 1 0 0 uG).m1 - uG.m1
      = -((1/100) / ((101/100) * Real.sqrt ((101 : ℝ)/100))) := by
    rw [gravCell_test_m1, rpow_3half_101, show uG.m1 = (0 : ℝ) from rfl]
    ring
  rw [hd]
  obtain ⟨hlb, hub⟩ := sqrt_101_bounds
  have hspos : (0 : ℝ) < Real.sqrt ((101 : ℝ)/100) := by linarith
  have hden : (0 : ℝ) < (101/100) * Real.sqrt ((101 : ℝ)/100) := by positivity
  have hb : (9843 : ℝ)/1000000
      < (1/100) / ((101/100) * Real.sqrt ((101 : ℝ)/100)) := by
    rw [lt_div_iff₀ hden]
    linarith
  calc (4 : ℝ)/100000
      < -(-((1/100) / ((101/100) * Real.sqrt ((101 : ℝ)/100))) + 9803/1000000) := by
        linarith
    _ ≤ |(-((1/100) / ((101/100) * Real.sqrt ((101 : ℝ)/100))) + 9803/1000000)| :=
        neg_le_abs _

/-- C4 (amended): at G = M = 1, eps = 1/10, x = (1, 0, 0), rho = 1,
bdt = 1/100, zero initial momentum, the gravity operator changes the
first momentum component by exactly -(1/100)/(101/100)^(3/2), which
lies between -9.853e-3 and -9.851e-3 (about -9.852e-3), and the
momentum and subsequent energy updates match the closed-form formulas
exactly. -/
theorem C4_gravity_regression_amended :
    ((RadBondi.AddBHGravCell pG (1/100) 1 0 0 uG).m1 - uG.m1
        = -(1/100) / ((101/100 : ℝ) ^ ((3 : ℝ)/2))) ∧
    (-(9853 : ℝ)/1000000
        < (RadBondi.AddBHGravCell pG (1/100) 1 0 0 uG).m1 - uG.m1) ∧
    ((RadBondi.AddBHGravCell pG (1/100) 1 0 0 uG).m1 - uG.m1
        < -(9851 : ℝ)/1000000) ∧
    ((RadBondi.AddBHGravCell pG (1/100) 1 0 0 uG).en
      = uG.en - ((RadBondi.AddBHGravCell pG (1/100) 1 0 0 uG).m1 * 1
          + (RadBondi.AddBHGravCell pG (1/100) 1 0 0 uG).m2 * 0
          + (RadBondi.AddBHGravCell pG (1/100) 1 0 0 uG).m3 * 0)
          * (1 * 1 / (((1 : ℝ) ^ 2 + 0 ^ 2 + 0 ^ 2 + (1/10) ^ 2) ^ ((3 : ℝ)/2)))
          * (1/100)) := by
  have hm1 : (RadBondi.AddBHGravCell pG (1/100) 1 0 0 uG).m1 - uG.m1
      = -(1/100) / ((101/100 : ℝ) ^ ((3 : ℝ)/2)) := by
    rw [show ((3 : ℝ)/2) = (1.5 : ℝ) by norm_num]
    rw [gravCell_test_m1, show uG.m1 = (0 : ℝ) from rfl]
    ring
  obtain ⟨hlb, hub⟩ := sqrt_101_bounds
  have hspos : (0 : ℝ) < Real.sqrt ((101 : ℝ)/100) := by linarith
  have hden : (0 : ℝ) < (101/100) * Real.sqrt ((101 : ℝ)/100) := by positivity
  have hval : (RadBondi.AddBHGravCell pG (1/100) 1 0 0 uG).m1 - uG.m1
      = -((1/100) / ((101/100) * Real.sqrt ((101 : ℝ)/100))) := by
    rw [hm1, show ((3 : ℝ)/2) = (1.5 : ℝ) by norm_num, rpow_3half_101]
    exact neg_div _ _
  refine ⟨hm1, ?_, ?_, ?_⟩
  · rw [hval]
    have hq : (1/100 : ℝ) / ((101/100) * Real.sqrt ((101 : ℝ)/100))
        < 9853/1000000 := by
      rw [div_lt_iff₀ hden]
      linarith
    linarith
  · rw [hval]
    have hq : (9851 : ℝ)/1000000
        < (1/100) / ((101/100) * Real.sqrt ((101 : ℝ)/100)) := by
      rw [lt_div_iff₀ hden]
      linarith
    linarith
  · simp only [RadBondi.AddBHGravCell, pG, uG]
    rw [grav_base_test]
    rw [show ((1 : ℝ) ^ 2 + 0 ^ 2 + 0 ^ 2 + (1/10) ^ 2 : ℝ) = 101/100 by norm_num]
    rw [show ((3 : ℝ)/2) = (1.5 : ℝ) by norm_num]

